import Mathlib

/-!
Verification of the Rural Medical Kiosk consultation orchestrator.

The data model and operations below are shallowly embedded from the
repository sources: the `soap_agent.py` excerpts (ConsultationState,
`_execute_tool`, the `analyze_image` interception, the symptom-extraction
fallback, the consent keyword list, the message-history context window)
and the TypeScript `BackendAPI` client.  Parts of the orchestrator whose
code is not present in the sources (the stage-transition table, the
consent-detection step, the provider retry loop) are modelled from the
specification and are marked as such in their doc comments.
-/

namespace Kiosk

/-- The seven SOAP consultation stages, in their fixed order
(soap_agent.py docstring: GREETING → SUBJECTIVE → OBJECTIVE → ASSESSMENT →
PLAN → SUMMARY → COMPLETED).  The Python code stores the stage as a string
in `ConsultationState.current_stage`; we use an enumeration. -/
inductive Stage
  | GREETING
  | SUBJECTIVE
  | OBJECTIVE
  | ASSESSMENT
  | PLAN
  | SUMMARY
  | COMPLETED
deriving DecidableEq, Repr

/-- Position of a stage in the fixed order. -/
def Stage.idx : Stage → Nat
  | .GREETING => 0
  | .SUBJECTIVE => 1
  | .OBJECTIVE => 2
  | .ASSESSMENT => 3
  | .PLAN => 4
  | .SUMMARY => 5
  | .COMPLETED => 6

/-- One entry of `message_history` (`{role, content}` dict in the source). -/
structure Msg where
  role : String
  content : String
deriving DecidableEq, Repr

/-- One similar case as returned by the SigLIP similarity-search tool
(siglip_rag_tool.py excerpt: `diagnosis` and `similarity_score` are the
fields the interception reads).  Scores are rationals standing for the
floating-point similarity scores. -/
structure SimilarCase where
  diagnosis : String
  similarity_score : ℚ
deriving DecidableEq, Repr

/-- One condition prediction of the image-analysis (MedGemma) tool
(medgemma_tool.py excerpt). -/
structure Prediction where
  condition : String
  confidence : ℚ
  reasoning : String
  icd_code : String
  is_critical : Bool
  urgency_level : String
deriving DecidableEq, Repr

/-- The `analysis` payload of a successful image analysis
(medgemma_tool.py excerpt). -/
structure Analysis where
  visual_description : String
  predictions : List Prediction
  critical_findings : List String
  requires_urgent_attention : Bool
  confidence_level : String
deriving DecidableEq, Repr

/-- The `ConsultationState` dataclass of soap_agent.py (lines 18-32 of the
excerpt).  `created_at` (a wall-clock timestamp) is omitted; no claim
mentions it.  `image_base64` is the pending image payload. -/
structure ConsultationState where
  consultation_id : String
  patient_id : String
  language : String
  current_stage : Stage
  consent_given : Bool
  extracted_symptoms : List String
  image_captured : Bool
  image_base64 : Option String
  analysis_results : Option Analysis
  similar_cases : List SimilarCase
  message_history : List Msg
deriving DecidableEq, Repr

/-- Boolean infix test on character lists: does `needle` occur
contiguously inside the list?  This is Python's `needle in haystack`
substring test. -/
def charsInfix (needle : List Char) : List Char → Bool
  | [] => needle.isEmpty
  | c :: t => needle.isPrefixOf (c :: t) || charsInfix needle t

/-- Python's `needle in hay` substring containment on strings. -/
def strContains (hay needle : String) : Bool :=
  charsInfix needle.toList hay.toList

/-- ASCII lower-casing of one character (the keyword lists are ASCII or
caseless Indic script, so this is Python's `str.lower` on every
character the match can distinguish). -/
def lowerChar (c : Char) : Char :=
  if 65 ≤ c.toNat ∧ c.toNat ≤ 90 then Char.ofNat (c.toNat + 32) else c

/-- Python's `message.lower()`. -/
def pyLower (s : String) : String :=
  String.mk (s.toList.map lowerChar)

/-- The multilingual consent keyword list, verbatim from soap_agent.py
(lines 498-516, quoted in the test-results document). -/
def consent_keywords : List String :=
  ["yes", "agree", "ok", "okay", "sure", "proceed", "continue",
   "हां", "सहमत", "ठीक", "आगे",
   "ஆம்", "சம்மதிக்கிறேன்", "சரி",
   "అవును", "అంగీకరిస్తున్నాను", "సరే",
   "হ্যাঁ", "সম্মত", "ঠিক"]

/-- The fixed symptom-indicator keyword list of the fallback rule,
verbatim from soap_agent.py (lines 406-421, quoted in the test-results
document). -/
def symptom_keywords : List String :=
  ["symptom", "rash", "pain", "itch", "red", "fever", "cough", "sore",
   "hurt", "burn"]

/-- Modelled from the spec: the deterministic consent-detection keyword
match (§4.2) run on every GREETING-stage message.  The keyword list is
the source's `consent_keywords`; the matching loop itself
(soap_agent.py lines 498-516) is not among the sources, so the match is
modelled as Python's case-insensitive `keyword in message.lower()`
containment, the same shape the in-source fallback rule uses. -/
def detectConsent (message : String) : Bool :=
  consent_keywords.any (fun k => strContains (pyLower message) k)

/-- The message-history context window: Python's
`self.state.message_history[-10:]` (soap_agent.py lines 358-364),
i.e. the at-most-10 most recent entries.  Reading the window does not
modify `message_history`. -/
def messageHistoryContext (history : List Msg) : List Msg :=
  history.drop (history.length - 10)

/-- One extracted symptom dict; the orchestrator reads only its
`name` field (`[s["name"] for s in symptoms]`). -/
structure Symptom where
  name : String
deriving DecidableEq, Repr

/-- Arguments of a tool invocation.  The Python code passes a JSON-like
dict; the embedding records the keys the orchestrator actually supplies,
each optional (an absent key is `none`). -/
structure ToolArgs where
  image_base64 : Option String := none
  top_k : Option Nat := none
  min_score : Option ℚ := none
  clinical_context : Option String := none
  language : Option String := none
  text : Option String := none
deriving DecidableEq, Repr

/-- The uniform result dict of an MCP tool
(`{success: bool, ...}`).  Keys the orchestrator reads with `.get` and a
default are modelled as fields with that default. -/
structure ToolResult where
  success : Bool
  error : Option String := none
  symptoms : List Symptom := []
  analysis : Option Analysis := none
  similar_cases : List SimilarCase := []
deriving DecidableEq, Repr

/-- A tool's `run` entry point (`async def run(operation, **kwargs)`),
with the external service's behaviour abstracted as the function. -/
def ToolFn : Type := ToolArgs → ToolResult

/-- One requested tool call (`{name, args}`). -/
structure Invocation where
  name : String
  args : ToolArgs
deriving DecidableEq, Repr

/-- The state updates `_execute_tool` performs after a tool ran
(soap_agent.py lines 304-316 of the excerpt):
symptom extraction appends the extracted names, image analysis overwrites
`analysis_results` and sets `image_captured`, similarity search
overwrites `similar_cases`; nothing else changes, and a result with
`success = false` changes nothing. -/
def mergeToolResult (name : String) (result : ToolResult)
    (s : ConsultationState) : ConsultationState :=
  if name = "extract_symptoms" ∧ result.success then
    { s with extracted_symptoms :=
        s.extracted_symptoms ++ result.symptoms.map Symptom.name }
  else if name = "analyze_image" ∧ result.success then
    { s with analysis_results := result.analysis, image_captured := true }
  else if name = "find_similar_cases" ∧ result.success then
    { s with similar_cases := result.similar_cases }
  else s

/-- The registry keys of the seven MCP tools
(soap_agent.py lines 190-200: `self.mcp_tools`). -/
def mcpToolNames : List String :=
  ["consultation", "medical", "medgemma", "rag", "safety", "siglip_rag",
   "speech"]

/-- `_execute_tool` (soap_agent.py lines 280-316 of the excerpt): map the
requested function name to a registry operation key (`opOf`, the mapping
code is elided in the excerpt), look the tool up in the registry, and on a
miss return `{success: False, error: f"Unknown tool: ..."}` without
touching the state; otherwise run the tool and merge its result into the
state. -/
def executeTool (registry : List (String × ToolFn)) (opOf : String → String)
    (name : String) (args : ToolArgs) (s : ConsultationState) :
    ToolResult × ConsultationState :=
  match registry.lookup (opOf name) with
  | none => ({ success := false, error := some ("Unknown tool: " ++ name) }, s)
  | some tool =>
    let r := tool args
    (r, mergeToolResult name r s)

/-- Python truthiness of an `Optional[str]`: present and non-empty.
The interception guard is `if fc.name == "analyze_image" and image_base64`. -/
def pyTruthyStr : Option String → Bool
  | none => false
  | some s => !(s = "")

/-- The argument dict of the interception's similarity-search call
(soap_agent.py lines 422-461 of the excerpt):
`{"image_base64": ..., "top_k": 3, "min_score": 0.7}`. -/
def simSearchArgs (img : String) : ToolArgs :=
  { image_base64 := some img, top_k := some 3, min_score := some (7/10) }

/-- `similar_cases = []; if result.get("success") and
result.get("similar_cases"): similar_cases = result["similar_cases"]` —
Python truthiness of a list is non-emptiness. -/
def extractSimilarCases (r : ToolResult) : List SimilarCase :=
  if r.success ∧ r.similar_cases ≠ [] then r.similar_cases else []

/-- Python's `f"{score:.0%}"`: the score rendered as a whole-number
percentage.  (Python rounds ties to even; the tie behaviour is irrelevant
to every property proved below.) -/
def fmtPct (score : ℚ) : String :=
  toString (round (score * 100)) ++ "%"

/-- One numbered similar-case line of the augmented context:
`f"{i}. {diagnosis} ({score:.0%})\n"`. -/
def caseLine (i : Nat) (c : SimilarCase) : String :=
  toString i ++ ". " ++ c.diagnosis ++ " (" ++ fmtPct c.similarity_score
    ++ ")" ++ "\n"

/-- The interception's enumerate-and-append loop over
`similar_cases[:3]`, starting the counter at 1. -/
def caseLinesFrom (i : Nat) : List SimilarCase → String
  | [] => ""
  | c :: t => caseLine i c ++ caseLinesFrom (i + 1) t

/-- STEP 2 of the interception: the augmented clinical context.
`clinical_context = message`; if any similar cases were found, the
header and the numbered one-line summaries of the first 3 cases are
appended. -/
def buildClinicalContext (message : String) (cases : List SimilarCase) :
    String :=
  if cases = [] then message
  else message ++ "\n\nSimilar Historical Cases:\n"
    ++ caseLinesFrom 1 (cases.take 3)

/-- Concatenation of a list of strings (used to restate the loop above
as a per-case map in the theorems). -/
def strJoin : List String → String
  | [] => ""
  | s :: t => s ++ strJoin t

/-- The enhanced sequential workflow the orchestrator substitutes for an
intercepted `analyze_image` request (soap_agent.py lines 422-461):
STEP 1 similarity search (top 3, min score 0.7), STEP 2 build the
augmented context, STEP 3 image analysis with that context, then store
the results.  Returns the tool invocations in the order they were
issued (the Python code awaits each call before issuing the next, so the
order of this list is the temporal order), the image-analysis result,
and the updated state. -/
def enhancedAnalyzeImage (registry : List (String × ToolFn))
    (opOf : String → String) (message lang img : String)
    (s0 : ConsultationState) :
    List Invocation × ToolResult × ConsultationState :=
  let sArgs := simSearchArgs img
  let simStep := executeTool registry opOf "find_similar_cases" sArgs s0
  let cases := extractSimilarCases simStep.1
  let ctx := buildClinicalContext message cases
  let aArgs : ToolArgs :=
    { image_base64 := some img, clinical_context := some ctx,
      language := some lang }
  let anaStep := executeTool registry opOf "analyze_image" aArgs simStep.2
  let anaRes := anaStep.1
  let s2 := anaStep.2
  let s3 :=
    if anaRes.success ∧ anaRes.analysis.isSome then
      { s2 with
        analysis_results := anaRes.analysis,
        similar_cases := cases,
        image_captured := true }
    else s2
  ([⟨"find_similar_cases", sArgs⟩, ⟨"analyze_image", aArgs⟩],
   anaRes, s3)

/-- The per-function-call dispatch of the turn loop: an `analyze_image`
request with a truthy available image is intercepted and replaced by the
enhanced two-step workflow; every other request goes straight to
`_execute_tool`.  The first component lists the tool invocations actually
issued, in order. -/
def handleFunctionCall (registry : List (String × ToolFn))
    (opOf : String → String) (message lang : String)
    (image_base64 : Option String) (fc : Invocation)
    (s : ConsultationState) :
    List Invocation × ToolResult × ConsultationState :=
  if fc.name = "analyze_image" ∧ pyTruthyStr image_base64 then
    match image_base64 with
    | some img => enhancedAnalyzeImage registry opOf message lang img s
    | none => ([fc], (executeTool registry opOf fc.name fc.args s).1,
        (executeTool registry opOf fc.name fc.args s).2)
  else
    ([fc], (executeTool registry opOf fc.name fc.args s).1,
     (executeTool registry opOf fc.name fc.args s).2)

/-- The trigger condition of the symptom-extraction fallback
(soap_agent.py lines 406-421): SUBJECTIVE stage, a symptom-indicator
keyword occurs in the lowercased message, and the provider's response did
not itself request `extract_symptoms`. -/
def fallbackTriggers (stage : Stage) (message : String)
    (function_calls : List Invocation) : Bool :=
  decide (stage = Stage.SUBJECTIVE)
    && symptom_keywords.any (fun k => strContains (pyLower message) k)
    && !(function_calls.any (fun fc => fc.name = "extract_symptoms"))

/-- The fallback step: when the trigger holds, manually invoke symptom
extraction once with the raw message; otherwise invoke nothing.  Returns
the invocations it issued together with the updated state. -/
def fallbackStep (registry : List (String × ToolFn))
    (opOf : String → String) (stage : Stage) (message : String)
    (function_calls : List Invocation) (s : ConsultationState) :
    List Invocation × ConsultationState :=
  if fallbackTriggers stage message function_calls then
    let args : ToolArgs := { text := some message }
    ([⟨"extract_symptoms", args⟩],
     (executeTool registry opOf "extract_symptoms" args s).2)
  else ([], s)

/-- Modelled from the spec: the consent-detection step of a turn (§4.2),
run on every GREETING-stage message (the implementing lines of
soap_agent.py are not among the sources).  An affirmative token sets
`consent_given`; nothing ever resets it. -/
def consentStep (s : ConsultationState) (message : String) :
    ConsultationState :=
  if s.current_stage = Stage.GREETING ∧ detectConsent message then
    { s with consent_given := true }
  else s

/-- Modelled from the spec: the stage-transition table of §4.2, evaluated
once per turn after tool execution.  `finalized` reports whether the
finalize tool executed successfully this turn (the PLAN row's condition);
COMPLETED has no outgoing row. -/
def stageTransition (finalized : Bool) (s : ConsultationState) : Stage :=
  match s.current_stage with
  | .GREETING => if s.consent_given then .SUBJECTIVE else .GREETING
  | .SUBJECTIVE =>
    if 2 ≤ s.extracted_symptoms.length then .OBJECTIVE else .SUBJECTIVE
  | .OBJECTIVE =>
    if s.analysis_results.isSome then .ASSESSMENT else .OBJECTIVE
  | .ASSESSMENT => .PLAN
  | .PLAN => if finalized then .SUMMARY else .PLAN
  | .SUMMARY => .COMPLETED
  | .COMPLETED => .COMPLETED

/-- Modelled from the spec: the observable state effects of one
orchestrator turn (§4.5 steps 6-9), abstracted over what the tools
produced this turn.  `new_symptoms` are the names appended by any
symptom extraction (provider-requested or fallback), `analysis` is the
payload of a successful image analysis if one happened, `finalized`
whether the finalize tool succeeded, `reply` the assistant text. -/
structure TurnInput where
  message : String
  reply : String
  new_symptoms : List String := []
  analysis : Option Analysis := none
  finalized : Bool := false
deriving DecidableEq, Repr

/-- Modelled from the spec: one turn — consent detection, tool-result
merges, history append, then the single stage-transition evaluation. -/
def applyTurn (s : ConsultationState) (t : TurnInput) : ConsultationState :=
  let s1 := consentStep s t.message
  let s2 :=
    { s1 with
      extracted_symptoms := s1.extracted_symptoms ++ t.new_symptoms,
      analysis_results :=
        match t.analysis with
        | some a => some a
        | none => s1.analysis_results,
      image_captured := s1.image_captured || t.analysis.isSome,
      message_history := s1.message_history
        ++ [Msg.mk "user" t.message, Msg.mk "assistant" t.reply] }
  { s2 with current_stage := stageTransition t.finalized s2 }

/-- A sequence of turns applied in order. -/
def runTurns (s : ConsultationState) (ts : List TurnInput) :
    ConsultationState :=
  ts.foldl applyTurn s

/-- Outcome of one completion-provider call attempt; the provider and its
transient failures are external. -/
inductive ProviderOutcome
  | ok (text : String) (calls : List Invocation)
  | failed
deriving DecidableEq, Repr

/-- Modelled from the spec: the completion-provider call with its single
retry (§4.5/§7; the repository's documents only recommend this retry
logic, its code is not among the sources).  `a1` is the first attempt's
outcome and `a2` the outcome the retry would see; returns how many
attempts were made and the successful payload, if any. -/
def completeWithRetry (a1 a2 : ProviderOutcome) :
    Nat × Option (String × List Invocation) :=
  match a1 with
  | .ok text calls => (1, some (text, calls))
  | .failed =>
    match a2 with
    | .ok text calls => (2, some (text, calls))
    | .failed => (2, none)

/-- The generic apologetic reply returned when the provider fails twice. -/
def apologyReply : String :=
  "I am sorry, I could not process that right now. Please try again."

/-- Modelled from the spec: the turn driver around the provider call
(§4.5/§7).  On a doubly-failed provider call the turn returns the
generic apology and the state exactly as it was before the turn;
otherwise the rest of the turn (`rest`) runs on the provider's output. -/
def providerTurn (s : ConsultationState) (a1 a2 : ProviderOutcome)
    (rest : ConsultationState → String → List Invocation →
      String × ConsultationState) : String × ConsultationState :=
  match (completeWithRetry a1 a2).2 with
  | none => (apologyReply, s)
  | some (text, calls) => rest s text calls

/-! The TypeScript `BackendAPI` client (lib/backend-api.ts, both
versions in the sources share the `request`/`uploadRequest` bodies). -/

/-- A minimal JSON value, for the parsed response bodies. -/
inductive Json
  | null
  | bool (b : Bool)
  | num (q : ℚ)
  | str (s : String)
  | arr (l : List Json)
  | obj (fields : List (String × Json))

/-- Read a field of a JSON object (JavaScript's `value.key`, `none` when
the value is not an object or the key is absent — `undefined`). -/
def Json.field (j : Json) (key : String) : Option Json :=
  match j with
  | .obj fields => fields.lookup key
  | _ => none

/-- JavaScript truthiness of a JSON value: `null`, `false`, `0` and the
empty string are falsy, everything else (including every array and
object) is truthy. -/
def jsTruthy : Json → Bool
  | .null => false
  | .bool b => b
  | .num q => !(q = 0)
  | .str s => !(s = "")
  | .arr _ => true
  | .obj _ => true

/-- The `ApiResponse<T>` interface of backend-api.ts, with `T`
instantiated at the parsed JSON body.  The `error` field is declared
`string` in TypeScript, but the `errorData.detail || ...` expression can
put any truthy JSON value into it at runtime, so it is modelled as a
JSON value (plain message strings are `Json.str`). -/
structure ApiResponse where
  success : Bool
  data : Option Json := none
  error : Option Json := none

/-- Environment behaviour of one `fetch` of the client:
either the fetch promise rejected (`thrown`, carrying the message of the
thrown value when it was an `Error`, `none` for a non-Error value), or a
response arrived with its `ok` flag, status, status text, and the result
of `response.json()` (`Except.error` is a rejected JSON parse, carrying
the thrown `SyntaxError` message). -/
inductive FetchOutcome
  | thrown (errMsg : Option String)
  | response (ok : Bool) (status : Nat) (statusText : String)
      (body : Except String Json)

/-- `errorData.detail || fallback` of the non-OK branch: the body is
parsed with `.catch(() => ({}))`, so a failed parse yields an object
without `detail`; a truthy `detail` of any JSON type passes through
unchanged, a missing or falsy one selects the fallback HTTP status
line. -/
def errorValueOr (body : Except String Json) (fallback : String) : Json :=
  match body with
  | .error _ => Json.str fallback
  | .ok j =>
    match j.field "detail" with
    | some d => if jsTruthy d then d else Json.str fallback
    | none => Json.str fallback

/-- `BackendAPI.request`: the generic fetch wrapper with error handling.
A thrown error is caught and reported as `error.message` when the thrown
value is an `Error` (verbatim, even when that message is empty), else as
the literal text Network error; a non-OK response reports the truthy
`detail` or the HTTP status line; an OK response whose body parses is
the sole success case, a body-parse rejection is caught by the same
outer catch. -/
def BackendAPI.request (fo : FetchOutcome) : ApiResponse :=
  match fo with
  | .thrown errMsg =>
    { success := false, error := some (Json.str (errMsg.getD "Network error")) }
  | .response ok status statusText body =>
    if ok then
      match body with
      | .ok j => { success := true, data := some j }
      | .error m => { success := false, error := some (Json.str m) }
    else
      { success := false,
        error := some (errorValueOr body
          ("HTTP " ++ toString status ++ ": " ++ statusText)) }

/-- `BackendAPI.uploadRequest`: the multipart variant; its error handling
is the same code as `request` (duplicated in the source). -/
def BackendAPI.uploadRequest (fo : FetchOutcome) : ApiResponse :=
  match fo with
  | .thrown errMsg =>
    { success := false, error := some (Json.str (errMsg.getD "Network error")) }
  | .response ok status statusText body =>
    if ok then
      match body with
      | .ok j => { success := true, data := some j }
      | .error m => { success := false, error := some (Json.str m) }
    else
      { success := false,
        error := some (errorValueOr body
          ("HTTP " ++ toString status ++ ": " ++ statusText)) }

/-- What the `FileReader` of `fileToBase64` delivered: the data URL of a
completed read, or a read error. -/
inductive FileReadOutcome
  | loaded (dataUrl : String)
  | readError (msg : String)

/-- JavaScript's `string.split(sep)` on a character separator, at the
character-list level. -/
def splitOnChar (c : Char) : List Char → List (List Char)
  | [] => [[]]
  | x :: t =>
    match splitOnChar c t with
    | [] => if x = c then [[], [x]] else [[x]]
    | seg :: rest =>
      if x = c then [] :: seg :: rest else (x :: seg) :: rest

/-- `fileToBase64` of the second backend-api.ts version: rejects when no
file was given, when the reader errored, when the reader produced an
empty result, or when no non-empty base64 part follows the first comma
of the data URL (`result.split(',')[1]` falsy); otherwise resolves that
part.  `Except.error` is a rejected promise. -/
def fileToBase64 (hasFile : Bool) (read : FileReadOutcome) :
    Except String String :=
  if hasFile = false then
    Except.error "No file provided to fileToBase64"
  else
    match read with
    | .readError m => Except.error m
    | .loaded dataUrl =>
      if dataUrl = "" then Except.error "FileReader returned empty result"
      else
        match (splitOnChar ',' dataUrl.toList)[1]? with
        | none => Except.error "Failed to extract base64 from data URL"
        | some b =>
          if b = [] then
            Except.error "Failed to extract base64 from data URL"
          else Except.ok (String.mk b)

/-- `BackendAPI.analyzeImageV2` — `analyzeImage` of the second
backend-api.ts version: it awaits `fileToBase64` outside any try/catch,
so a rejection there propagates to the caller; and when the conversion
succeeds it calls `this.postRequest`, a method that is not defined
anywhere in the class, so the success path throws a TypeError instead of
performing a request.  Every path of this method rejects. -/
def BackendAPI.analyzeImageV2 (hasFile : Bool) (read : FileReadOutcome) :
    Except String ApiResponse :=
  match fileToBase64 hasFile read with
  | .error m => Except.error m
  | .ok _ => Except.error "this.postRequest is not a function"

/-- `blobToBase64` of the second backend-api.ts version: resolves the
part after the first comma of the data URL, or (`|| result`) the whole
data URL when that part is missing or empty; rejects only when the
`FileReader` errors (`reader.onerror = reject`). -/
def blobToBase64 (read : FileReadOutcome) : Except String String :=
  match read with
  | .readError m => Except.error m
  | .loaded dataUrl =>
    match (splitOnChar ',' dataUrl.toList)[1]? with
    | none => Except.ok dataUrl
    | some b => if b = [] then Except.ok dataUrl else Except.ok (String.mk b)

/-- `BackendAPI.transcribeSpeechV2` — `transcribeSpeech` of the second
backend-api.ts version: it awaits `blobToBase64` outside any try/catch,
so a reader rejection propagates to the caller; the wrapped
`this.request` call on the built payload is abstracted as `send`. -/
def BackendAPI.transcribeSpeechV2 (read : FileReadOutcome)
    (send : String → ApiResponse) : Except String ApiResponse :=
  (blobToBase64 read).map send

/-- `BackendAPI.detectLanguageV2` — `detectLanguage` of the second
backend-api.ts version: the same un-guarded `blobToBase64` await before
the wrapped `this.request` call (abstracted as `send`). -/
def BackendAPI.detectLanguageV2 (read : FileReadOutcome)
    (send : String → ApiResponse) : Except String ApiResponse :=
  (blobToBase64 read).map send

/-- The endpoint methods whose whole body is building a path/payload and
returning one `this.request(...)` call (both backend-api.ts versions):
the construction of the endpoint string and JSON body is pure and is
absorbed into the `FetchOutcome` describing that request's fate. -/
def BackendAPI.createConsultation (fo : FetchOutcome) : ApiResponse :=
  BackendAPI.request fo

/-- `getConsultation`: a single `this.request` call. -/
def BackendAPI.getConsultation (fo : FetchOutcome) : ApiResponse :=
  BackendAPI.request fo

/-- `sendChatMessage`: a single `this.request` call. -/
def BackendAPI.sendChatMessage (fo : FetchOutcome) : ApiResponse :=
  BackendAPI.request fo

/-- `startChat`: a single `this.request` call. -/
def BackendAPI.startChat (fo : FetchOutcome) : ApiResponse :=
  BackendAPI.request fo

/-- `getChatHistory`: a single `this.request` call. -/
def BackendAPI.getChatHistory (fo : FetchOutcome) : ApiResponse :=
  BackendAPI.request fo

/-- `synthesizeSpeech`: a single `this.request` call. -/
def BackendAPI.synthesizeSpeech (fo : FetchOutcome) : ApiResponse :=
  BackendAPI.request fo

/-- `getSupportedLanguages`: a single `this.request` call. -/
def BackendAPI.getSupportedLanguages (fo : FetchOutcome) : ApiResponse :=
  BackendAPI.request fo

/-- `generateReport`: picks one of two endpoints, then a single
`this.request` call. -/
def BackendAPI.generateReport (fo : FetchOutcome) : ApiResponse :=
  BackendAPI.request fo

/-- `getTextReport` (second version): picks one of two endpoints, then a
single `this.request` call. -/
def BackendAPI.getTextReport (fo : FetchOutcome) : ApiResponse :=
  BackendAPI.request fo

/-- `healthCheck`: a single `this.request` call. -/
def BackendAPI.healthCheck (fo : FetchOutcome) : ApiResponse :=
  BackendAPI.request fo

/-- `findSimilarCases` (both versions): builds a `FormData` and returns
one `this.uploadRequest` call. -/
def BackendAPI.findSimilarCases (fo : FetchOutcome) : ApiResponse :=
  BackendAPI.uploadRequest fo

/-- `analyzeImage` of the FIRST backend-api.ts version: builds a
`FormData` and returns one `this.uploadRequest` call (no base64
conversion, unlike the second version). -/
def BackendAPI.analyzeImageV1 (fo : FetchOutcome) : ApiResponse :=
  BackendAPI.uploadRequest fo

/-- `transcribeSpeech` of the FIRST backend-api.ts version: builds a
`FormData` and returns one `this.uploadRequest` call. -/
def BackendAPI.transcribeSpeechV1 (fo : FetchOutcome) : ApiResponse :=
  BackendAPI.uploadRequest fo

/-- `detectLanguage` of the FIRST backend-api.ts version: builds a
`FormData` and returns one `this.uploadRequest` call. -/
def BackendAPI.detectLanguageV1 (fo : FetchOutcome) : ApiResponse :=
  BackendAPI.uploadRequest fo

/-- Environment behaviour of the PDF fetch of `downloadReportPDF`:
rejected fetch, or a response with its `ok` flag and the result of
`response.blob()` (the blob payload abstracted as a string). -/
inductive BlobFetchOutcome
  | thrown
  | response (ok : Bool) (blob : Except String String)

/-- `BackendAPI.downloadReportPDF`: returns the blob, or `null` (here
`none`) on a non-OK status or any caught error — not an `ApiResponse`. -/
def BackendAPI.downloadReportPDF (fo : BlobFetchOutcome) : Option String :=
  match fo with
  | .thrown => none
  | .response ok blob =>
    if ok then
      match blob with
      | .ok b => some b
      | .error _ => none
    else none

/-! Concrete sample inputs, used to instantiate the theorems below. -/

/-- A fresh consultation state, as `ConsultationState()` constructs it
(GREETING stage, no consent, empty accumulators). -/
def sampleState : ConsultationState :=
  { consultation_id := "c-1", patient_id := "p-1", language := "en",
    current_stage := Stage.GREETING, consent_given := false,
    extracted_symptoms := [], image_captured := false,
    image_base64 := none, analysis_results := none,
    similar_cases := [], message_history := [] }

/-- A tool stub returning a fixed result. -/
def constTool (r : ToolResult) : ToolFn := fun _ => r

/-- A sample registry holding all seven tool names. -/
def sampleRegistry : List (String × ToolFn) :=
  mcpToolNames.map (fun n => (n, constTool { success := true }))

/-- A sample function-name-to-operation mapping (per the tool
documentation: image analysis is the medgemma tool, visual similarity
the siglip_rag tool, symptom extraction the medical tool). -/
def sampleOpOf (name : String) : String :=
  if name = "analyze_image" then "medgemma"
  else if name = "find_similar_cases" then "siglip_rag"
  else if name = "extract_symptoms" then "medical"
  else name

/-- A sample analysis payload. -/
def sampleAnalysis : Analysis :=
  { visual_description := "red patches",
    predictions := [Prediction.mk "eczema" (95/100) "pattern" "L30.9"
      false "routine"],
    critical_findings := [], requires_urgent_attention := false,
    confidence_level := "high" }

/-- State taken as the counterexample input: one symptom already
extracted and a pending image awaiting consumption. -/
def cexState : ConsultationState :=
  { sampleState with
    current_stage := Stage.OBJECTIVE,
    extracted_symptoms := ["rash"],
    image_base64 := some "img64" }

/-- A successful tool result used by the counterexample: symptom
extraction returned the already-present name, image analysis returned a
payload. -/
def cexResult : ToolResult :=
  { success := true, symptoms := [{ name := "rash" }],
    analysis := some sampleAnalysis, similar_cases := [] }

/-- Three sample similar cases, with the scores of the spec's fourth
scenario. -/
def simCases : List SimilarCase :=
  [SimilarCase.mk "Eczema" (81/100),
   SimilarCase.mk "Contact dermatitis" (77/100),
   SimilarCase.mk "Psoriasis" (72/100)]

/-- A registry whose similarity tool finds the three sample cases. -/
def witnessRegistry : List (String × ToolFn) :=
  [("medgemma", constTool { success := true, analysis := some sampleAnalysis }),
   ("siglip_rag", constTool { success := true, similar_cases := simCases }),
   ("medical", constTool { success := true })]

/-- A sample FastAPI 422 validation-error body: its `detail` is a truthy
non-string JSON array. -/
def validation422Body : Json :=
  Json.obj [("detail",
    Json.arr [Json.obj [("msg", Json.str "field required")]])]

/-! ## Theorems -/

/-- C5: For every turn, the message-history portion of the context
assembled for the completion provider contains at most the 10 most
recent entries of `messageHistory`, however many entries it holds: the
window is a suffix of the stored history of length `min 10 length`, and
assembling it reads but never modifies the stored history (it is a pure
function of it). -/
theorem history_window_cap (history : List Msg) :
    (messageHistoryContext history).length = min 10 history.length
    ∧ (messageHistoryContext history).IsSuffix history := by
  refine ⟨?_, List.drop_suffix _ _⟩
  simp only [messageHistoryContext, List.length_drop]
  omega

/-- C9: `_execute_tool` is total over tool names: a name whose operation
key is not in the registry yields `success: false` with an error naming
the unknown tool, no exception, and an unchanged consultation state. -/
theorem unknown_tool_dispatch (registry : List (String × ToolFn))
    (opOf : String → String) (name : String) (args : ToolArgs)
    (s : ConsultationState)
    (h : registry.lookup (opOf name) = none) :
    executeTool registry opOf name args s =
      ({ success := false, error := some ("Unknown tool: " ++ name),
         symptoms := [], analysis := none, similar_cases := [] }, s) := by
  simp [executeTool, h]

/-- Witness for C9: dispatching the unregistered name make_coffee on the
sample registry. -/
theorem unknown_tool_dispatch_witness :
    executeTool sampleRegistry sampleOpOf "make_coffee" {} sampleState =
      ({ success := false, error := some ("Unknown tool: " ++ "make_coffee"),
         symptoms := [], analysis := none, similar_cases := [] },
       sampleState) :=
  unknown_tool_dispatch sampleRegistry sampleOpOf "make_coffee" {}
    sampleState rfl

/-- C8 (modelled from the spec; the retry logic's code is not among the
sources): a failed completion-provider call is retried exactly once
(two attempts in total, one attempt when the first call succeeds), and
when the retry also fails the turn returns the generic apologetic reply
with the consultation state exactly as it was before the turn. -/
theorem provider_retry_semantics (s : ConsultationState)
    (a1 a2 : ProviderOutcome)
    (rest : ConsultationState → String → List Invocation →
      String × ConsultationState)
    (h1 : a1 = ProviderOutcome.failed)
    (h2 : a2 = ProviderOutcome.failed) :
    (completeWithRetry a1 a2).1 = 2
    ∧ providerTurn s a1 a2 rest = (apologyReply, s)
    ∧ ∀ text calls, (completeWithRetry (ProviderOutcome.ok text calls) a2).1 = 1 := by
  subst h1; subst h2
  exact ⟨rfl, rfl, fun _ _ => rfl⟩

/-- Witness for C8: a doubly-failed provider call on the sample state. -/
theorem provider_retry_semantics_witness :
    (completeWithRetry ProviderOutcome.failed ProviderOutcome.failed).1 = 2
    ∧ providerTurn sampleState ProviderOutcome.failed
        ProviderOutcome.failed (fun s _ _ => ("", s)) =
      (apologyReply, sampleState)
    ∧ ∀ text calls,
        (completeWithRetry (ProviderOutcome.ok text calls)
          ProviderOutcome.failed).1 = 1 :=
  provider_retry_semantics sampleState ProviderOutcome.failed
    ProviderOutcome.failed (fun s _ _ => ("", s)) rfl rfl

/-- Counterexample for C7 as stated: merging a successful image-analysis
result does NOT clear the pending image (`image_base64` keeps its
payload, where the claim requires it cleared), and merging a successful
symptom-extraction result appends with duplicates (the entries of
`extracted_symptoms` are not distinct afterwards). -/
theorem state_merge_counterexample :
    (mergeToolResult "analyze_image" cexResult cexState).image_base64 =
      some "img64"
    ∧ ¬ (mergeToolResult "extract_symptoms" cexResult
        cexState).extracted_symptoms.Nodup := by
  constructor
  · rfl
  · decide

/-- C7 amended: merging tool results follows the state-merge mapping of
the code: a successful symptom-extraction result appends the extracted
names as individual entries (duplicates allowed) without removing or
reordering existing entries; a successful image-analysis result
overwrites `analysisResult` and sets `imageCaptured` to true, leaving
`pendingImage` (`image_base64`) unchanged; a successful
similarity-search result overwrites `similarCases`. -/
theorem state_merge_mapping_amended (r : ToolResult)
    (s : ConsultationState) (h : r.success = true) :
    (mergeToolResult "extract_symptoms" r s).extracted_symptoms =
      s.extracted_symptoms ++ r.symptoms.map Symptom.name
    ∧ mergeToolResult "analyze_image" r s =
        { s with analysis_results := r.analysis, image_captured := true }
    ∧ mergeToolResult "find_similar_cases" r s =
        { s with similar_cases := r.similar_cases } := by
  refine ⟨?_, ?_, ?_⟩ <;> simp [mergeToolResult, h]

/-- Witness for C7 (amended): the mapping evaluated on the
counterexample inputs. -/
theorem state_merge_mapping_amended_witness :
    (mergeToolResult "extract_symptoms" cexResult cexState).extracted_symptoms =
      cexState.extracted_symptoms ++ cexResult.symptoms.map Symptom.name
    ∧ mergeToolResult "analyze_image" cexResult cexState =
        { cexState with
          analysis_results := cexResult.analysis, image_captured := true }
    ∧ mergeToolResult "find_similar_cases" cexResult cexState =
        { cexState with similar_cases := cexResult.similar_cases } :=
  state_merge_mapping_amended cexResult cexState rfl

/-- Helper: the consent step never changes the stage. -/
theorem consentStep_stage (s : ConsultationState) (m : String) :
    (consentStep s m).current_stage = s.current_stage := by
  unfold consentStep
  split <;> rfl

/-- Helper: the consent step never resets consent. -/
theorem consentStep_consent_false (s : ConsultationState) (m : String)
    (h : detectConsent m = false) :
    (consentStep s m).consent_given = s.consent_given := by
  unfold consentStep
  split
  · next hc => rw [h] at hc; exact absurd hc.2 (by simp)
  · rfl

/-- Helper: the GREETING row of the transition table fires only on
consent. -/
theorem stageTransition_greeting (fin : Bool) (u : ConsultationState)
    (hstage : u.current_stage = Stage.GREETING)
    (hconsent : u.consent_given = false) :
    stageTransition fin u = Stage.GREETING := by
  unfold stageTransition
  rw [hstage, hconsent]
  simp

/-- C3 (stage machine modelled from the spec; the keyword list is the
source's): a GREETING-stage message containing no affirmative token
leaves `consentGiven` false and the stage at GREETING after the turn,
and no state whose stage is GREETING with `consentGiven` false ever
transitions out of GREETING. -/
theorem consent_gate (s : ConsultationState) (t : TurnInput)
    (hstage : s.current_stage = Stage.GREETING)
    (hconsent : s.consent_given = false)
    (hmsg : detectConsent t.message = false) :
    ((applyTurn s t).consent_given = false
      ∧ (applyTurn s t).current_stage = Stage.GREETING)
    ∧ ∀ (u : ConsultationState) (fin : Bool),
        u.current_stage = Stage.GREETING → u.consent_given = false →
        stageTransition fin u = Stage.GREETING := by
  have hc : (consentStep s t.message).consent_given = false := by
    rw [consentStep_consent_false s t.message hmsg, hconsent]
  have hs : (consentStep s t.message).current_stage = Stage.GREETING := by
    rw [consentStep_stage, hstage]
  refine ⟨⟨?_, ?_⟩, fun u fin hu hcu => stageTransition_greeting fin u hu hcu⟩
  · simp only [applyTurn]
    exact hc
  · simp only [applyTurn]
    exact stageTransition_greeting _ _ hs hc

/-- Witness for C3: the first scenario of the spec — message Hello on a
fresh session. -/
theorem consent_gate_witness :
    ((applyTurn sampleState (TurnInput.mk "Hello" "Hi there" [] none
        false)).consent_given = false
      ∧ (applyTurn sampleState (TurnInput.mk "Hello" "Hi there" [] none
        false)).current_stage = Stage.GREETING)
    ∧ ∀ (u : ConsultationState) (fin : Bool),
        u.current_stage = Stage.GREETING → u.consent_given = false →
        stageTransition fin u = Stage.GREETING :=
  consent_gate sampleState (TurnInput.mk "Hello" "Hi there" [] none false)
    rfl rfl (by decide)

/-- Helper: one evaluation of the transition table never moves the stage
backwards. -/
theorem stageTransition_mono (fin : Bool) (s : ConsultationState) :
    Stage.idx s.current_stage ≤ Stage.idx (stageTransition fin s) := by
  rcases s with ⟨cid, pid, lang, st, cg, es, ic, ib, ar, sc, mh⟩
  cases st <;> simp only [stageTransition] <;> (try split) <;> decide

/-- Helper: COMPLETED has no outgoing transition. -/
theorem stageTransition_completed (fin : Bool) (s : ConsultationState)
    (h : s.current_stage = Stage.COMPLETED) :
    stageTransition fin s = Stage.COMPLETED := by
  unfold stageTransition
  rw [h]

/-- Helper: one turn never moves the stage backwards. -/
theorem applyTurn_stage_mono (s : ConsultationState) (t : TurnInput) :
    Stage.idx s.current_stage ≤ Stage.idx (applyTurn s t).current_stage := by
  simp only [applyTurn]
  refine le_trans ?_ (stageTransition_mono t.finalized _)
  simp [consentStep_stage]

/-- Helper: one turn keeps COMPLETED terminal. -/
theorem applyTurn_completed (s : ConsultationState) (t : TurnInput)
    (h : s.current_stage = Stage.COMPLETED) :
    (applyTurn s t).current_stage = Stage.COMPLETED := by
  simp only [applyTurn]
  exact stageTransition_completed _ _ (by rw [consentStep_stage, h])

/-- C6 (stage machine modelled from the spec): across any sequence of
turns the stage's position in the fixed order never decreases, and
COMPLETED is terminal — once reached, no later turn changes it. -/
theorem stage_monotonicity (s : ConsultationState) (ts : List TurnInput) :
    Stage.idx s.current_stage ≤ Stage.idx (runTurns s ts).current_stage
    ∧ (s.current_stage = Stage.COMPLETED →
        (runTurns s ts).current_stage = Stage.COMPLETED) := by
  induction ts generalizing s with
  | nil => exact ⟨le_refl _, fun h => h⟩
  | cons t ts ih =>
    refine ⟨?_, ?_⟩
    · exact le_trans (applyTurn_stage_mono s t) (ih (applyTurn s t)).1
    · intro h
      exact (ih (applyTurn s t)).2 (applyTurn_completed s t h)

/-- Witness for C6: a completed consultation stays completed across a
further turn. -/
theorem stage_monotonicity_witness :
    Stage.idx ({ sampleState with current_stage := Stage.COMPLETED }
        : ConsultationState).current_stage
      ≤ Stage.idx (runTurns { sampleState with
          current_stage := Stage.COMPLETED }
          [TurnInput.mk "more" "done" [] none false]).current_stage
    ∧ (runTurns { sampleState with current_stage := Stage.COMPLETED }
        [TurnInput.mk "more" "done" [] none false]).current_stage =
      Stage.COMPLETED :=
  ⟨(stage_monotonicity { sampleState with
      current_stage := Stage.COMPLETED }
      [TurnInput.mk "more" "done" [] none false]).1,
   (stage_monotonicity { sampleState with
      current_stage := Stage.COMPLETED }
      [TurnInput.mk "more" "done" [] none false]).2 rfl⟩

/-- Helper: the fallback trigger unfolded into its three conditions. -/
theorem fallbackTriggers_iff (stage : Stage) (message : String)
    (function_calls : List Invocation) :
    fallbackTriggers stage message function_calls = true ↔
      (stage = Stage.SUBJECTIVE
        ∧ (symptom_keywords.any fun k =>
            strContains (pyLower message) k) = true
        ∧ (function_calls.any fun fc =>
            fc.name = "extract_symptoms") = false) := by
  simp [fallbackTriggers, and_assoc]

/-- C4: the orchestrator manually invokes symptom extraction (with the
raw message) exactly when the stage is SUBJECTIVE, the message contains
a symptom-indicator keyword, and the provider's response did not itself
request `extract_symptoms`; in particular when the provider already
requested it in the turn, the fallback issues no invocation at all. -/
theorem fallback_rule_exact (registry : List (String × ToolFn))
    (opOf : String → String) (stage : Stage) (message : String)
    (function_calls : List Invocation) (s : ConsultationState) :
    ((fallbackStep registry opOf stage message function_calls s).1 =
        [⟨"extract_symptoms", { text := some message }⟩] ↔
      (stage = Stage.SUBJECTIVE
        ∧ (symptom_keywords.any fun k =>
            strContains (pyLower message) k) = true
        ∧ (function_calls.any fun fc =>
            fc.name = "extract_symptoms") = false))
    ∧ ((function_calls.any fun fc =>
          fc.name = "extract_symptoms") = true →
        (fallbackStep registry opOf stage message function_calls s).1 =
          []) := by
  rw [← fallbackTriggers_iff]
  unfold fallbackStep
  by_cases h : fallbackTriggers stage message function_calls = true
  · refine ⟨?_, ?_⟩
    · simp [h]
    · intro hcalled
      exfalso
      have := (fallbackTriggers_iff stage message function_calls).mp h
      rw [this.2.2] at hcalled
      exact Bool.false_ne_true hcalled
  · have h' : fallbackTriggers stage message function_calls = false := by
      revert h
      cases fallbackTriggers stage message function_calls <;> simp
    refine ⟨?_, ?_⟩
    · simp [h']
    · intro _
      simp [h']

/-- Witness for C4: the provider already requested `extract_symptoms`,
so the fallback stays silent even on a symptom-laden SUBJECTIVE-stage
message. -/
theorem fallback_rule_exact_witness :
    (fallbackStep sampleRegistry sampleOpOf Stage.SUBJECTIVE
        "I have a red itchy rash"
        [Invocation.mk "extract_symptoms" {}] sampleState).1 = [] :=
  (fallback_rule_exact sampleRegistry sampleOpOf Stage.SUBJECTIVE
    "I have a red itchy rash" [Invocation.mk "extract_symptoms" {}]
    sampleState).2 rfl

/-- Helper: the enumerate-and-append loop of STEP 2 produces exactly one
numbered line per case, in order. -/
theorem caseLinesFrom_eq (l : List SimilarCase) :
    ∀ i, caseLinesFrom i l =
      strJoin (List.zipWith caseLine (List.range' i l.length) l) := by
  induction l with
  | nil => intro i; rfl
  | cons c t ih =>
    intro i
    simp only [caseLinesFrom, List.length_cons, List.range'_succ,
      List.zipWith_cons_cons, strJoin]
    rw [ih (i + 1)]

/-- C1: when the completion provider requests `analyze_image` while an
image is available, the intercepted turn issues exactly two tool
invocations — similarity search first, then image analysis — and the
image-analysis invocation's arguments are built from the already
completed similarity invocation's result (whether it succeeded or
failed), so image analysis cannot start before similarity search has
finished.  The invocation list is the temporal order: the Python code
awaits each `_execute_tool` call before issuing the next, so the two
calls are never issued concurrently. -/
theorem sequential_enhancement_ordering (registry : List (String × ToolFn))
    (opOf : String → String) (message lang : String)
    (image : Option String) (fc : Invocation) (s : ConsultationState)
    (hname : fc.name = "analyze_image")
    (himg : pyTruthyStr image = true) :
    ∃ img, image = some img
      ∧ (handleFunctionCall registry opOf message lang image fc s).1 =
          [Invocation.mk "find_similar_cases" (simSearchArgs img),
           Invocation.mk "analyze_image"
             { image_base64 := some img,
               clinical_context := some (buildClinicalContext message
                 (extractSimilarCases (executeTool registry opOf
                   "find_similar_cases" (simSearchArgs img) s).1)),
               language := some lang }] := by
  cases image with
  | none => simp [pyTruthyStr] at himg
  | some img =>
    refine ⟨img, rfl, ?_⟩
    simp [handleFunctionCall, hname, himg, enhancedAnalyzeImage]

/-- Witness for C1: an intercepted `analyze_image` request on the sample
registry with image IMG. -/
theorem sequential_enhancement_ordering_witness :
    ∃ img, (some "IMG" : Option String) = some img
      ∧ (handleFunctionCall sampleRegistry sampleOpOf "hello" "en"
          (some "IMG") (Invocation.mk "analyze_image" {}) sampleState).1 =
          [Invocation.mk "find_similar_cases" (simSearchArgs img),
           Invocation.mk "analyze_image"
             { image_base64 := some img,
               clinical_context := some (buildClinicalContext "hello"
                 (extractSimilarCases (executeTool sampleRegistry
                   sampleOpOf "find_similar_cases" (simSearchArgs img)
                   sampleState).1)),
               language := some "en" }] :=
  sequential_enhancement_ordering sampleRegistry sampleOpOf "hello" "en"
    (some "IMG") (Invocation.mk "analyze_image" {}) sampleState rfl
    (by decide)

/-- C2: the intercepted workflow invokes similarity search requesting the
top 3 matches above minimum score 0.7; the subsequent image-analysis
invocation carries the augmented context, which appends to the original
clinical context one numbered line per returned case (at most the first
3); and when similarity search returned zero cases the image-analysis
invocation still happens, with the original unaugmented context (the
workflow is total — an empty result is not an error). -/
theorem enhanced_workflow_specification (registry : List (String × ToolFn))
    (opOf : String → String) (message lang img : String)
    (s : ConsultationState) :
    ∀ cs, cs = extractSimilarCases (executeTool registry opOf
        "find_similar_cases" (simSearchArgs img) s).1 →
      ((enhancedAnalyzeImage registry opOf message lang img s).1.head? =
          some (Invocation.mk "find_similar_cases" (simSearchArgs img))
        ∧ (simSearchArgs img).top_k = some 3
        ∧ (simSearchArgs img).min_score = some (7/10))
      ∧ (enhancedAnalyzeImage registry opOf message lang img s).1 =
          [Invocation.mk "find_similar_cases" (simSearchArgs img),
           Invocation.mk "analyze_image"
             { image_base64 := some img,
               clinical_context := some (buildClinicalContext message cs),
               language := some lang }]
      ∧ (cs ≠ [] → buildClinicalContext message cs =
          message ++ "\n\nSimilar Historical Cases:\n"
            ++ strJoin (List.zipWith caseLine
              (List.range' 1 (cs.take 3).length) (cs.take 3)))
      ∧ (cs = [] → buildClinicalContext message cs = message) := by
  intro cs hcs
  refine ⟨⟨?_, rfl, rfl⟩, ?_, ?_, ?_⟩
  · simp [enhancedAnalyzeImage]
  · simp [enhancedAnalyzeImage, hcs]
  · intro h
    rw [buildClinicalContext, if_neg h, caseLinesFrom_eq]
  · intro h
    rw [buildClinicalContext, if_pos h]

/-- Witness for C2: the enhanced workflow on a registry whose similarity
search finds three cases. -/
theorem enhanced_workflow_specification_witness :
    ((enhancedAnalyzeImage witnessRegistry sampleOpOf "msg" "en" "IMG"
        sampleState).1.head? =
        some (Invocation.mk "find_similar_cases" (simSearchArgs "IMG"))
      ∧ (simSearchArgs "IMG").top_k = some 3
      ∧ (simSearchArgs "IMG").min_score = some (7/10))
    ∧ (enhancedAnalyzeImage witnessRegistry sampleOpOf "msg" "en" "IMG"
        sampleState).1 =
        [Invocation.mk "find_similar_cases" (simSearchArgs "IMG"),
         Invocation.mk "analyze_image"
           { image_base64 := some "IMG",
             clinical_context := some (buildClinicalContext "msg"
               (extractSimilarCases (executeTool witnessRegistry sampleOpOf
                 "find_similar_cases" (simSearchArgs "IMG")
                 sampleState).1)),
             language := some "en" }]
    ∧ ((extractSimilarCases (executeTool witnessRegistry sampleOpOf
          "find_similar_cases" (simSearchArgs "IMG") sampleState).1) ≠ [] →
        buildClinicalContext "msg"
          (extractSimilarCases (executeTool witnessRegistry sampleOpOf
            "find_similar_cases" (simSearchArgs "IMG") sampleState).1) =
          "msg" ++ "\n\nSimilar Historical Cases:\n"
            ++ strJoin (List.zipWith caseLine
              (List.range' 1 ((extractSimilarCases (executeTool
                witnessRegistry sampleOpOf "find_similar_cases"
                (simSearchArgs "IMG") sampleState).1).take 3).length)
              ((extractSimilarCases (executeTool witnessRegistry sampleOpOf
                "find_similar_cases" (simSearchArgs "IMG")
                sampleState).1).take 3)))
    ∧ ((extractSimilarCases (executeTool witnessRegistry sampleOpOf
          "find_similar_cases" (simSearchArgs "IMG") sampleState).1) = [] →
        buildClinicalContext "msg"
          (extractSimilarCases (executeTool witnessRegistry sampleOpOf
            "find_similar_cases" (simSearchArgs "IMG") sampleState).1) =
          "msg") :=
  enhanced_workflow_specification witnessRegistry sampleOpOf "msg" "en"
    "IMG" sampleState
    (extractSimilarCases (executeTool witnessRegistry sampleOpOf
      "find_similar_cases" (simSearchArgs "IMG") sampleState).1) rfl

/-- Helper: the HTTP status fallback message is never empty. -/
theorem http_fallback_ne_empty (st : Nat) (text : String) :
    ("HTTP " ++ toString st ++ ": " ++ text) ≠ "" := by
  intro h
  have hl := congrArg String.length h
  simp [String.length_append] at hl
  exact absurd hl.1.1.1 (by decide)

/-- Helper: `errorData.detail || fallback` is a truthy value whenever
the fallback string is non-empty: either the truthy `detail` passes
through, or the non-empty fallback string is itself truthy. -/
theorem errorValueOr_truthy (body : Except String Json)
    (fallback : String) (h : fallback ≠ "") :
    jsTruthy (errorValueOr body fallback) = true := by
  cases body with
  | error m => simp [errorValueOr, jsTruthy, h]
  | ok j =>
    cases hj : j.field "detail" with
    | none => simp [errorValueOr, hj, jsTruthy, h]
    | some d =>
      by_cases hd : jsTruthy d = true
      · simp [errorValueOr, hj, hd]
      · simp only [errorValueOr, hj]
        rw [if_neg hd]
        simp [jsTruthy, h]

/-- Counterexample for C10 as stated: several `BackendAPI` endpoint
methods break the claim.  In the second backend-api.ts version,
`analyzeImage` awaits `fileToBase64` outside any try/catch, so a data
URL without a base64 part rejects to the caller, and even its success
path throws because the class defines no `postRequest` method;
`transcribeSpeech` and `detectLanguage` likewise await `blobToBase64`
outside any try/catch, so a `FileReader` failure (`reader.onerror =
reject`) propagates.  `downloadReportPDF` answers a non-OK response with
`null`, which is not a structured `ApiResponse` and carries no error
string.  And even `request` itself can fall short of a NON-EMPTY error
string: a thrown `Error` whose message is the empty string is reported
verbatim as `""`, and a truthy non-string `detail` (a FastAPI 422
validation array) is passed through as the error value, which is then
not a string at all. -/
theorem backend_api_counterexample :
    BackendAPI.analyzeImageV2 true (FileReadOutcome.loaded "nocommadata")
      = Except.error "Failed to extract base64 from data URL"
    ∧ BackendAPI.analyzeImageV2 true
        (FileReadOutcome.loaded "data:image/jpeg;base64,AAAA")
      = Except.error "this.postRequest is not a function"
    ∧ BackendAPI.transcribeSpeechV2 (FileReadOutcome.readError "read aborted")
        (fun _ => { success := true })
      = Except.error "read aborted"
    ∧ BackendAPI.detectLanguageV2 (FileReadOutcome.readError "read aborted")
        (fun _ => { success := true })
      = Except.error "read aborted"
    ∧ BackendAPI.downloadReportPDF
        (BlobFetchOutcome.response false (Except.ok "blob")) = none
    ∧ (BackendAPI.request (FetchOutcome.thrown (some ""))).error =
        some (Json.str "")
    ∧ (BackendAPI.request (FetchOutcome.response false 422
        "Unprocessable Entity" (Except.ok validation422Body))).error =
        some (Json.arr [Json.obj [("msg", Json.str "field required")]])
    ∧ ∀ s : String,
        Json.arr [Json.obj [("msg", Json.str "field required")]] ≠
          Json.str s := by
  refine ⟨rfl, rfl, rfl, rfl, rfl, rfl, rfl, ?_⟩
  intro s h
  exact Json.noConfusion h

/-- C10 amended: `request` and `uploadRequest` never propagate an
exception and always return a structured `ApiResponse`, and therefore so
does every endpoint method whose body is a single `request` or
`uploadRequest` call (`createConsultation`, `getConsultation`,
`sendChatMessage`, `startChat`, `getChatHistory`, `synthesizeSpeech`,
`getSupportedLanguages`, `generateReport`, `getTextReport`,
`healthCheck`, `findSimilarCases`, and the first version's
`analyzeImage`, `transcribeSpeech` and `detectLanguage` — the theorem
states the pointwise equality of each with its wrapper).  On any non-OK
HTTP status the wrappers return `success = false` with a truthy error
value — the response's truthy `detail`, which may be a non-string JSON
value, or else the non-empty HTTP status line.  On a thrown error they
return `success = false` with the thrown `Error`'s verbatim message
(empty if that message was empty) or the literal text Network error.
`success = true` holds exactly when an OK response's body was parsed as
JSON into `data`.  The second version's `analyzeImage`,
`transcribeSpeech` and `detectLanguage` can instead propagate a
pre-request rejection (and the second `analyzeImage`'s success path
throws calling the undefined `postRequest`), and `downloadReportPDF`
returns a blob-or-null rather than an `ApiResponse` — see the
counterexample. -/
theorem backend_request_error_handling :
    (∀ (st : Nat) (text : String) (body : Except String Json),
        (BackendAPI.request (FetchOutcome.response false st text
          body)).success = false
        ∧ ∃ v, (BackendAPI.request (FetchOutcome.response false st text
            body)).error = some v ∧ jsTruthy v = true)
    ∧ (∀ (st : Nat) (text : String) (body : Except String Json),
        (BackendAPI.uploadRequest (FetchOutcome.response false st text
          body)).success = false
        ∧ ∃ v, (BackendAPI.uploadRequest (FetchOutcome.response false st
            text body)).error = some v ∧ jsTruthy v = true)
    ∧ (∀ (m : Option String),
        BackendAPI.request (FetchOutcome.thrown m) =
          { success := false, data := none,
            error := some (Json.str (m.getD "Network error")) })
    ∧ (∀ (m : Option String),
        BackendAPI.uploadRequest (FetchOutcome.thrown m) =
          { success := false, data := none,
            error := some (Json.str (m.getD "Network error")) })
    ∧ (∀ fo, (BackendAPI.request fo).success = true →
        ∃ st text j, fo = FetchOutcome.response true st text (Except.ok j)
          ∧ (BackendAPI.request fo).data = some j)
    ∧ (∀ fo, (BackendAPI.uploadRequest fo).success = true →
        ∃ st text j, fo = FetchOutcome.response true st text (Except.ok j)
          ∧ (BackendAPI.uploadRequest fo).data = some j)
    ∧ (∀ fo,
        BackendAPI.createConsultation fo = BackendAPI.request fo
        ∧ BackendAPI.getConsultation fo = BackendAPI.request fo
        ∧ BackendAPI.sendChatMessage fo = BackendAPI.request fo
        ∧ BackendAPI.startChat fo = BackendAPI.request fo
        ∧ BackendAPI.getChatHistory fo = BackendAPI.request fo
        ∧ BackendAPI.synthesizeSpeech fo = BackendAPI.request fo
        ∧ BackendAPI.getSupportedLanguages fo = BackendAPI.request fo
        ∧ BackendAPI.generateReport fo = BackendAPI.request fo
        ∧ BackendAPI.getTextReport fo = BackendAPI.request fo
        ∧ BackendAPI.healthCheck fo = BackendAPI.request fo
        ∧ BackendAPI.findSimilarCases fo = BackendAPI.uploadRequest fo
        ∧ BackendAPI.analyzeImageV1 fo = BackendAPI.uploadRequest fo
        ∧ BackendAPI.transcribeSpeechV1 fo = BackendAPI.uploadRequest fo
        ∧ BackendAPI.detectLanguageV1 fo = BackendAPI.uploadRequest fo) := by
  refine ⟨?_, ?_, fun m => rfl, fun m => rfl, ?_, ?_, ?_⟩
  · intro st text body
    exact ⟨rfl, errorValueOr body ("HTTP " ++ toString st ++ ": " ++ text),
      rfl, errorValueOr_truthy body _ (http_fallback_ne_empty st text)⟩
  · intro st text body
    exact ⟨rfl, errorValueOr body ("HTTP " ++ toString st ++ ": " ++ text),
      rfl, errorValueOr_truthy body _ (http_fallback_ne_empty st text)⟩
  · intro fo h
    cases fo with
    | thrown m => simp [BackendAPI.request] at h
    | response ok st text body =>
      cases ok with
      | false => simp [BackendAPI.request] at h
      | true =>
        cases body with
        | ok j => exact ⟨st, text, j, rfl, rfl⟩
        | error m => simp [BackendAPI.request] at h
  · intro fo h
    cases fo with
    | thrown m => simp [BackendAPI.uploadRequest] at h
    | response ok st text body =>
      cases ok with
      | false => simp [BackendAPI.uploadRequest] at h
      | true =>
        cases body with
        | ok j => exact ⟨st, text, j, rfl, rfl⟩
        | error m => simp [BackendAPI.uploadRequest] at h
  · intro fo
    exact ⟨rfl, rfl, rfl, rfl, rfl, rfl, rfl, rfl, rfl, rfl, rfl, rfl,
      rfl, rfl⟩

/-- Witness for C10 (amended): the success characterization applied to a
concrete OK response with a parsed JSON body. -/
theorem backend_request_error_handling_witness :
    ∃ st text j,
      FetchOutcome.response true 200 "OK" (Except.ok Json.null) =
        FetchOutcome.response true st text (Except.ok j)
      ∧ (BackendAPI.request (FetchOutcome.response true 200 "OK"
          (Except.ok Json.null))).data = some j :=
  backend_request_error_handling.2.2.2.2.1
    (FetchOutcome.response true 200 "OK" (Except.ok Json.null)) rfl

end Kiosk
